import Mathlib

/-!
Verification of the `pdf-rule-checker` server (`server/index.js`) against its
natural-language specification.

The server is an Express app with one main endpoint, `POST /api/check-pdf`,
which

  1. validates the uploaded file and the `rules` form field,
  2. extracts text from the PDF (library call `pdf-parse`),
  3. deletes the temporary uploaded file,
  4. evaluates each rule concurrently via `checkRuleWithLLM` (an external
     OpenAI chat-completion call followed by JSON parsing and normalization),
  5. responds with `{ results }`.

We shallow-embed this pipeline in Lean.  External effects (the PDF text
extraction and the LLM network call) are passed in as explicit oracle
arguments of type `Except String _`, where `.error msg` models a thrown
JavaScript exception whose `.message` is `msg`.  JavaScript strings are
modelled as Lean `String`s (`substring`/`length` act on the character list;
JS operates on UTF-16 code units, which coincides with characters for the
BMP text relevant here).  JavaScript numbers appearing in the parsed LLM
reply are modelled as integers; `parseInt` on non-integer-syntax strings
yields `NaN`, modelled as `none`.
-/

/-- The normalized per-rule result object built by the server
(`server/index.js`, object literals at lines 85-91, 159-165, 168-174). -/
structure RuleResult where
  rule : String
  status : String
  evidence : String
  reasoning : String
  confidence : Int
  deriving Repr, DecidableEq

/-- A JSON scalar as it may appear in the `confidence` field of the parsed
LLM reply: a string or an (integer-valued) number. -/
inductive JSVal where
  | jstr : String → JSVal
  | jnum : Int → JSVal
  deriving Repr, DecidableEq

/-- The object produced by `JSON.parse` on the LLM reply, restricted to the
four fields the server reads.  `none` models an absent (`undefined`) field.
`status`, `evidence` and `reasoning` are read as strings (a non-string
truthy `status` would make `.toLowerCase()` throw inside the same `try`,
landing in the error branch, and is outside this model's scope). -/
structure LLMReply where
  status : Option String
  evidence : Option String
  reasoning : Option String
  confidence : Option JSVal
  deriving Repr, DecidableEq

/-- JavaScript `x || dflt` for an optional string `x`: `undefined` and the
empty string are falsy, any other string is returned as-is. -/
def jsOrStr (v : Option String) (dflt : String) : String :=
  match v with
  | none => dflt
  | some s => if s = "" then dflt else s

/-- JS `.toLowerCase()`, modelled character-wise (ASCII case mapping, which
covers all statuses relevant here). -/
def jsToLower (s : String) : String :=
  ⟨s.data.map Char.toLower⟩

/-- JS string `.trim()`: strip leading and trailing whitespace. -/
def jsTrim (s : String) : String :=
  ⟨((s.data.dropWhile Char.isWhitespace).reverse.dropWhile
      Char.isWhitespace).reverse⟩

/-- Leading decimal digits of a character list (`parseInt` consumes the
longest digit prefix and ignores the rest). -/
def takeDigits : List Char → List Char
  | [] => []
  | c :: cs => if c.isDigit then c :: takeDigits cs else []

/-- Numeric value of a digit list, most significant first. -/
def digitsToNat (ds : List Char) : Nat :=
  ds.foldl (fun acc c => acc * 10 + (c.toNat - 48)) 0

/-- JavaScript `parseInt` on a string: skip leading whitespace, read an
optional sign and then a (decimal) digit prefix; `none` models `NaN` when no
digit is found.  (The `0x` hexadecimal prefix special case is not modelled;
no claim depends on it.) -/
def jsParseIntStr (s : String) : Option Int :=
  match s.data.dropWhile Char.isWhitespace with
  | '-' :: rest =>
      let ds := takeDigits rest
      if ds = [] then none else some (-(digitsToNat ds : Int))
  | '+' :: rest =>
      let ds := takeDigits rest
      if ds = [] then none else some ((digitsToNat ds : Int))
  | cs =>
      let ds := takeDigits cs
      if ds = [] then none else some ((digitsToNat ds : Int))

/-- JavaScript `parseInt(x)` for the `confidence` field: an absent field is
`parseInt(undefined) = NaN`; an integer number parses to itself (via its
decimal string); a string is parsed by `jsParseIntStr`. -/
def jsParseInt : Option JSVal → Option Int
  | none => none
  | some (.jnum n) => some n
  | some (.jstr s) => jsParseIntStr s

/-- JavaScript `v || 0` applied to a `parseInt` result: `NaN` (here `none`)
is falsy and yields `0`; the number `0` is also falsy but `0 || 0 = 0`, so
returning the parsed value otherwise is faithful. -/
def jsOrZero : Option Int → Int
  | none => 0
  | some n => n

/-- Model of `Math.max(0, Math.min(100, parseInt(result.confidence) || 0))`
(`server/index.js` line 164). -/
def normalizeConfidence (c : Option JSVal) : Int :=
  max 0 (min 100 (jsOrZero (jsParseInt c)))

/-- JS `.substring(0, n)`: the first `n` characters. -/
def jsSubstring (s : String) (n : Nat) : String :=
  ⟨s.data.take n⟩

/-- JS `.length`. -/
def jsLength (s : String) : Nat :=
  s.data.length

/-- The fixed text of the prompt template before the interpolated rule
(`server/index.js` line 117-119). -/
def promptHead : String :=
  "You are analyzing a document to check if it follows a specific rule.\n\nRULE TO CHECK: \""

/-- The fixed text between the rule and the document text (line 119-121). -/
def promptMid : String :=
  "\"\n\nDOCUMENT TEXT:\n"

/-- The fixed text of the prompt template after the document text
(lines 124-136). -/
def promptTail : String :=
  "\n\nPlease analyze the document and determine if it PASSES or FAILS the rule. Provide your response in the following JSON format:\n\x7b\n  \"status\": \"pass\" or \"fail\",\n  \"evidence\": \"One specific sentence or phrase from the document that supports your decision (or 'Not found' if failing)\",\n  \"reasoning\": \"Brief explanation (1-2 sentences) of why it passes or fails\",\n  \"confidence\": A number between 0-100 representing your confidence in this assessment\n\x7d\n\nIMPORTANT: \n- Return ONLY valid JSON, no additional text\n- Evidence should be an exact quote from the document if possible\n- Confidence should reflect how certain you are (higher for clear cases, lower for ambiguous ones)\n- If the rule is not met, status must be \"fail\""

/-- The document-text fragment interpolated into the prompt:
`pdfText.substring(0, 12000)` followed by `'...'` exactly when
`pdfText.length > 12000` (line 122). -/
def truncatedDocText (pdfText : String) : String :=
  jsSubstring pdfText 12000 ++ (if jsLength pdfText > 12000 then "..." else "")

/-- The full prompt template of `checkRuleWithLLM` (lines 117-136). -/
def buildPrompt (pdfText rule : String) : String :=
  promptHead ++ rule ++ promptMid ++ truncatedDocText pdfText ++ promptTail

/-- Model of `checkRuleWithLLM` (`server/index.js` lines 115-176), with the network
call and `JSON.parse` abstracted into the `reply` oracle: `.ok r` means the
OpenAI call succeeded and its content parsed to the object `r`; `.error msg`
means either threw with message `msg`.  The `try` branch normalizes the
parsed object (lines 159-165); the `catch` branch builds the degraded
failure result (lines 168-174). -/
def checkRuleWithLLM (rule : String) (reply : Except String LLMReply) :
    RuleResult :=
  match reply with
  | .error msg =>
      { rule := rule
        status := "fail"
        evidence := "Error processing rule"
        reasoning := "Failed to analyze: " ++ msg
        confidence := 0 }
  | .ok r =>
      { rule := rule
        status := jsToLower (jsOrStr r.status "fail")
        evidence := jsOrStr r.evidence "No evidence found"
        reasoning := jsOrStr r.reasoning "Unable to determine"
        confidence := normalizeConfidence r.confidence }

/-- An element of the parsed `rules` array, as a JavaScript value: the
handler does not check that elements are strings, so an element may also be
a number or `null`. -/
inductive JRule where
  | jstr : String → JRule
  | jnum : Int → JRule
  | jnull
  deriving Repr, DecidableEq

/-- The degraded result returned for a falsy or whitespace-only rule
(`server/index.js` lines 85-91); `ruleField` is the value of
`rule || 'Empty rule'`. -/
def emptyRuleResult (ruleField : String) : RuleResult :=
  { rule := ruleField
    status := "fail"
    evidence := "No rule provided"
    reasoning := "Rule is empty or invalid"
    confidence := 0 }

/-- One iteration of the `rules.map` callback (`server/index.js` lines
83-95) on the rule value `r`.  The first component is the settled value of
the per-rule promise (`.error` models a synchronously thrown exception,
e.g. the `TypeError` from calling `.trim()` on a number); the second
component records whether `checkRuleWithLLM` — and hence the external LLM
service — was invoked for this rule. -/
def evalRuleEntry (r : JRule) (reply : Except String LLMReply) :
    Except String RuleResult × Bool :=
  match r with
  | .jnull => (.ok (emptyRuleResult "Empty rule"), false)
  | .jnum n =>
      if n = 0 then (.ok (emptyRuleResult "Empty rule"), false)
      else (.error "rule.trim is not a function", false)
  | .jstr s =>
      if s = "" then (.ok (emptyRuleResult "Empty rule"), false)
      else if jsTrim s = "" then (.ok (emptyRuleResult s), false)
      else (.ok (checkRuleWithLLM s reply), true)

/-- The list of settled per-rule promises together with their LLM-call
flags, evaluating rule `k` against the oracle reply `oracle (i + k)`:
position in the input list selects the corresponding network interaction. -/
def evalAllFrom (oracle : Nat → Except String LLMReply) :
    Nat → List JRule → List (Except String RuleResult × Bool)
  | _, [] => []
  | i, r :: rs => evalRuleEntry r (oracle i) :: evalAllFrom oracle (i + 1) rs

/-- Model of `Promise.all`: resolves to the list of values in input order when every
promise resolves, and rejects (with the synchronously-first rejection,
modelled as the leftmost) when any promise rejects. -/
def promiseAll {ε α : Type} : List (Except ε α) → Except ε (List α)
  | [] => .ok []
  | .error e :: _ => .error e
  | .ok a :: rest => (promiseAll rest).map (a :: ·)

/-- Model of `await Promise.all(rules.map(...))` (`server/index.js` lines
82-96). -/
def runRules (rules : List JRule) (oracle : Nat → Except String LLMReply) :
    Except String (List RuleResult) :=
  promiseAll ((evalAllFrom oracle 0 rules).map Prod.fst)

/-- How many of the per-rule evaluations invoked the external LLM. -/
def llmCallCount (rules : List JRule)
    (oracle : Nat → Except String LLMReply) : Nat :=
  ((evalAllFrom oracle 0 rules).filter Prod.snd).length

/-- The HTTP response sent by the `/api/check-pdf` handler: a 200 with the
results array, a 400 with an error string, or a 500 whose body carries
`error: 'Failed to process PDF'` and the exception message. -/
inductive Response where
  | ok (results : List RuleResult)
  | badRequest (error : String)
  | serverError (message : String)
  deriving Repr, DecidableEq

/-- The parsed `rules` form field as the handler sees it after lines 53-61:
`badJson` = `JSON.parse` threw; `nullish` = `rules` is `null`/`undefined`
(falsy); `notArray` = a truthy non-array value; `arr` = an array. -/
inductive RulesInput where
  | badJson
  | nullish
  | notArray
  | arr (rules : List JRule)
  deriving Repr, DecidableEq

/-- State of the temporary upload on disk: whether it still exists, and how
many times `fs.unlinkSync` has been called on it. -/
structure FsState where
  fileExists : Bool
  unlinkCount : Nat
  deriving Repr, DecidableEq

/-- Effect of `fs.unlinkSync(req.file.path)`: the file is gone afterwards. -/
def unlinkSync (fs : FsState) : FsState :=
  { fileExists := false, unlinkCount := fs.unlinkCount + 1 }

/-- The `catch`-block cleanup (`server/index.js` lines 103-105):
`if (fs.existsSync(req.file.path)) fs.unlinkSync(req.file.path)`. -/
def cleanupIfExists (fs : FsState) : FsState :=
  if fs.fileExists then unlinkSync fs else fs

/-- Observable outcome of one `/api/check-pdf` request: the response, the
final state of the temporary upload, whether the `pdf-parse` extraction was
attempted, and how many per-rule LLM calls were made. -/
structure Outcome where
  response : Response
  fsFinal : FsState
  extractionAttempted : Bool
  llmCalls : Nat
  deriving Repr, DecidableEq

/-- The `/api/check-pdf` handler (`server/index.js` lines 46-112).

`file` models `req.file` (`none` = no upload).  `extract` is the combined
`fs.readFileSync` + `await pdfParse` oracle: `.ok text` yields the extracted
text, `.error msg` models a thrown extraction error (e.g. `pdf-parse` on a
non-PDF buffer).  `oracle` supplies the LLM interaction for each rule index.

The file-system state is threaded explicitly: when an upload is present the
handler starts from `⟨true, 0⟩` (the file was saved by multer), the
validation failures at lines 59 and 65 call `unlinkSync` directly, the
success path calls it at line 75 (before the empty-text check and the rule
evaluation), and the `catch` block applies `cleanupIfExists`, so an
exception raised after line 75 (e.g. the `TypeError` of a non-string rule)
finds the file already gone. -/
def checkPdfHandler (file : Option Unit) (rules : RulesInput)
    (extract : Except String String)
    (oracle : Nat → Except String LLMReply) : Outcome :=
  match file with
  | none =>
      { response := .badRequest "No PDF file uploaded"
        fsFinal := ⟨false, 0⟩, extractionAttempted := false, llmCalls := 0 }
  | some _ =>
      let fs0 : FsState := ⟨true, 0⟩
      match rules with
      | .badJson =>
          { response := .badRequest "Invalid rules format"
            fsFinal := unlinkSync fs0
            extractionAttempted := false, llmCalls := 0 }
      | .nullish =>
          { response := .badRequest "At least one rule is required"
            fsFinal := unlinkSync fs0
            extractionAttempted := false, llmCalls := 0 }
      | .notArray =>
          { response := .badRequest "At least one rule is required"
            fsFinal := unlinkSync fs0
            extractionAttempted := false, llmCalls := 0 }
      | .arr rs =>
          if rs.length = 0 then
            { response := .badRequest "At least one rule is required"
              fsFinal := unlinkSync fs0
              extractionAttempted := false, llmCalls := 0 }
          else
            match extract with
            | .error msg =>
                { response := .serverError msg
                  fsFinal := cleanupIfExists fs0
                  extractionAttempted := true, llmCalls := 0 }
            | .ok text =>
                let fs1 := unlinkSync fs0
                if jsTrim text = "" then
                  { response := .badRequest "Could not extract text from PDF"
                    fsFinal := fs1
                    extractionAttempted := true, llmCalls := 0 }
                else
                  match runRules rs oracle with
                  | .error msg =>
                      { response := .serverError msg
                        fsFinal := cleanupIfExists fs1
                        extractionAttempted := true
                        llmCalls := llmCallCount rs oracle }
                  | .ok results =>
                      { response := .ok results
                        fsFinal := fs1
                        extractionAttempted := true
                        llmCalls := llmCallCount rs oracle }

/-! ### Helper lemmas -/

/-- A joined `Promise.all` succeeded exactly when every constituent promise
resolved, and then its value is the list of resolved values in order. -/
theorem promiseAll_eq_ok_iff {ε α : Type} (l : List (Except ε α))
    (res : List α) : promiseAll l = .ok res ↔ l = res.map Except.ok := by
  induction l generalizing res with
  | nil =>
    cases res <;> simp [promiseAll]
  | cons x xs ih =>
    cases x with
    | error e => cases res <;> simp [promiseAll]
    | ok a =>
      cases res with
      | nil =>
        simp only [promiseAll, List.map_nil]
        cases hx : promiseAll xs <;> simp [Except.map]
      | cons r rs =>
        simp only [promiseAll, List.map_cons]
        cases hx : promiseAll xs with
        | error e =>
          simp only [Except.map, List.cons.injEq, Except.ok.injEq]
          constructor
          · intro h; exact absurd h (by simp)
          · rintro ⟨rfl, h2⟩
            have := (ih rs).mpr h2
            rw [this] at hx
            exact absurd hx (by simp)
        | ok as =>
          simp only [Except.map, Except.ok.injEq, List.cons.injEq]
          constructor
          · rintro ⟨rfl, rfl⟩
            exact ⟨rfl, (ih _).mp hx⟩
          · rintro ⟨rfl, h2⟩
            have := (ih _).mpr h2
            rw [this] at hx
            simp only [Except.ok.injEq] at hx
            exact ⟨rfl, hx.symm⟩

/-- The per-rule evaluation list has one entry per rule. -/
theorem evalAllFrom_length (oracle : Nat → Except String LLMReply)
    (i : Nat) (rs : List JRule) :
    (evalAllFrom oracle i rs).length = rs.length := by
  induction rs generalizing i with
  | nil => rfl
  | cons r rs ih => simp [evalAllFrom, ih]

/-- The `j`-th entry of the per-rule evaluation list is the evaluation of
the `j`-th rule against the `(i+j)`-th oracle interaction. -/
theorem evalAllFrom_get? (oracle : Nat → Except String LLMReply)
    (i : Nat) (rs : List JRule) (j : Nat) (hj : j < rs.length) :
    (evalAllFrom oracle i rs).get? j =
      some (evalRuleEntry (rs.get ⟨j, hj⟩) (oracle (i + j))) := by
  induction rs generalizing i j with
  | nil => exact absurd hj (by simp)
  | cons r rs ih =>
    cases j with
    | zero => simp [evalAllFrom]
    | succ j =>
      have hj' : j < rs.length := Nat.lt_of_succ_lt_succ hj
      have harith : i + 1 + j = i + (j + 1) := by omega
      calc (evalAllFrom oracle i (r :: rs)).get? (j + 1)
          = (evalAllFrom oracle (i + 1) rs).get? j := by
            simp [evalAllFrom]
        _ = some (evalRuleEntry (rs.get ⟨j, hj'⟩) (oracle (i + 1 + j))) :=
            ih (i + 1) j hj'
        _ = some (evalRuleEntry ((r :: rs).get ⟨j + 1, hj⟩)
              (oracle (i + (j + 1)))) := by
            rw [harith, List.get_cons_succ]

/-! ### Claim theorems -/

/-- C1 (counterexample): the claim that the produced status is always
exactly "pass" or "fail" is false on the code.  When the upstream LLM
returns the status string "unknown", the normalizer at line 161 only
lower-cases it, so the produced RuleResult has status "unknown", which is
neither "pass" nor "fail". -/
theorem checkRule_status_unknown_counterexample :
    (checkRuleWithLLM "Document mentions a date."
        (.ok ⟨some "unknown", none, none, none⟩)).status ≠ "pass" ∧
    (checkRuleWithLLM "Document mentions a date."
        (.ok ⟨some "unknown", none, none, none⟩)).status ≠ "fail" ∧
    (checkRuleWithLLM "Document mentions a date."
        (.ok ⟨some "unknown", none, none, none⟩)).status = "unknown" := by
  decide

/-- C1 (amended): the status field is the lower-cased upstream status when
the upstream status is present and non-empty (so "PASS" becomes "pass"),
and defaults to "fail" when the status is missing or empty or when the
call/parse failed; arbitrary non-pass/fail strings are passed through
lower-cased rather than normalized to the pass/fail alphabet. -/
theorem checkRule_status_normalization :
    (∀ rule msg, (checkRuleWithLLM rule (.error msg)).status = "fail") ∧
    (∀ rule ev re c,
      (checkRuleWithLLM rule (.ok ⟨none, ev, re, c⟩)).status = "fail") ∧
    (∀ rule ev re c,
      (checkRuleWithLLM rule (.ok ⟨some "", ev, re, c⟩)).status = "fail") ∧
    (∀ rule s ev re c, s ≠ "" →
      (checkRuleWithLLM rule (.ok ⟨some s, ev, re, c⟩)).status
        = jsToLower s) := by
  refine ⟨fun rule msg => rfl, fun rule ev re c => ?_, fun rule ev re c => ?_,
    fun rule s ev re c hs => ?_⟩
  · show jsToLower (jsOrStr none "fail") = "fail"
    decide
  · show jsToLower (jsOrStr (some "") "fail") = "fail"
    decide
  · show jsToLower (jsOrStr (some s) "fail") = jsToLower s
    simp [jsOrStr, hs]

/-- Witness for C1 (amended): at the concrete upstream status "PASS" the
produced status is "pass". -/
theorem checkRule_status_normalization_witness :
    (checkRuleWithLLM "r" (.ok ⟨some "PASS", none, none, none⟩)).status
      = "pass" := by
  have h := checkRule_status_normalization.2.2.2 "r" "PASS" none none none
    (by decide)
  rw [h]
  decide

/-- C2: the produced confidence is always an integer in [0,100]; a missing
or unparsable upstream confidence yields 0; a parsed value below 0 clamps
to 0, above 100 clamps to 100, and an in-range value is kept. -/
theorem checkRule_confidence_clamped :
    (∀ rule reply, 0 ≤ (checkRuleWithLLM rule reply).confidence ∧
        (checkRuleWithLLM rule reply).confidence ≤ 100) ∧
    (∀ rule st ev re,
        (checkRuleWithLLM rule (.ok ⟨st, ev, re, none⟩)).confidence = 0) ∧
    (∀ rule st ev re s, jsParseIntStr s = none →
        (checkRuleWithLLM rule
          (.ok ⟨st, ev, re, some (.jstr s)⟩)).confidence = 0) ∧
    (∀ rule st ev re n, n < 0 →
        (checkRuleWithLLM rule
          (.ok ⟨st, ev, re, some (.jnum n)⟩)).confidence = 0) ∧
    (∀ rule st ev re n, 100 < n →
        (checkRuleWithLLM rule
          (.ok ⟨st, ev, re, some (.jnum n)⟩)).confidence = 100) ∧
    (∀ rule st ev re n, 0 ≤ n → n ≤ 100 →
        (checkRuleWithLLM rule
          (.ok ⟨st, ev, re, some (.jnum n)⟩)).confidence = n) := by
  refine ⟨fun rule reply => ?_, fun rule st ev re => ?_,
    fun rule st ev re s hs => ?_, fun rule st ev re n hn => ?_,
    fun rule st ev re n hn => ?_, fun rule st ev re n hn0 hn1 => ?_⟩
  · cases reply with
    | error msg => exact ⟨le_refl 0, by norm_num [checkRuleWithLLM]⟩
    | ok r =>
      show 0 ≤ normalizeConfidence r.confidence ∧
        normalizeConfidence r.confidence ≤ 100
      unfold normalizeConfidence
      omega
  · show normalizeConfidence none = 0
    decide
  · show normalizeConfidence (some (.jstr s)) = 0
    simp [normalizeConfidence, jsParseInt, hs, jsOrZero]
  · show normalizeConfidence (some (.jnum n)) = 0
    simp only [normalizeConfidence, jsParseInt, jsOrZero]
    omega
  · show normalizeConfidence (some (.jnum n)) = 100
    simp only [normalizeConfidence, jsParseInt, jsOrZero]
    omega
  · show normalizeConfidence (some (.jnum n)) = n
    simp only [normalizeConfidence, jsParseInt, jsOrZero]
    omega

/-- Witness for C2: concrete evaluations — a non-numeric string confidence
yields 0, -5 clamps to 0, 150 clamps to 100, and 73 is kept. -/
theorem checkRule_confidence_clamped_witness :
    (checkRuleWithLLM "r"
      (.ok ⟨none, none, none, some (.jstr "high")⟩)).confidence = 0 ∧
    (checkRuleWithLLM "r"
      (.ok ⟨none, none, none, some (.jnum (-5))⟩)).confidence = 0 ∧
    (checkRuleWithLLM "r"
      (.ok ⟨none, none, none, some (.jnum 150)⟩)).confidence = 100 ∧
    (checkRuleWithLLM "r"
      (.ok ⟨none, none, none, some (.jnum 73)⟩)).confidence = 73 :=
  ⟨checkRule_confidence_clamped.2.2.1 "r" none none none "high" (by decide),
   checkRule_confidence_clamped.2.2.2.1 "r" none none none (-5) (by decide),
   checkRule_confidence_clamped.2.2.2.2.1 "r" none none none 150 (by decide),
   checkRule_confidence_clamped.2.2.2.2.2 "r" none none none 73 (by decide)
     (by decide)⟩

/-- C3: a throwing LLM call or JSON parse for one rule is absorbed by
`checkRuleWithLLM` (which is a total function into RuleResult, so nothing
propagates): the result is status "fail", evidence "Error processing rule",
reasoning "Failed to analyze: " followed by the error message, confidence 0.
Moreover the evaluation of every other rule is unaffected: entry `j` of the
per-rule evaluation list depends only on interaction `j`, so changing the
interaction of rule `i` leaves every entry `j ≠ i` unchanged. -/
theorem checkRule_error_contained :
    (∀ rule msg, checkRuleWithLLM rule (.error msg) =
      { rule := rule, status := "fail", evidence := "Error processing rule",
        reasoning := "Failed to analyze: " ++ msg, confidence := 0 }) ∧
    (∀ (rs : List JRule) (oracle oracle2 : Nat → Except String LLMReply)
        (i : Nat), (∀ j, j ≠ i → oracle j = oracle2 j) →
      ∀ j, j ≠ i →
        (evalAllFrom oracle 0 rs).get? j = (evalAllFrom oracle2 0 rs).get? j) := by
  refine ⟨fun rule msg => rfl, fun rs oracle oracle2 i hagree j hj => ?_⟩
  by_cases hlt : j < rs.length
  · rw [evalAllFrom_get? oracle 0 rs j hlt, evalAllFrom_get? oracle2 0 rs j hlt,
      Nat.zero_add, hagree j hj]
  · have h1 : (evalAllFrom oracle 0 rs).length ≤ j := by
      rw [evalAllFrom_length]; omega
    have h2 : (evalAllFrom oracle2 0 rs).length ≤ j := by
      rw [evalAllFrom_length]; omega
    rw [List.get?_eq_none.mpr h1, List.get?_eq_none.mpr h2]

/-- Witness for C3: with two rules where the oracle for rule 0 is changed
from an error to a success, the evaluation entry of rule 1 is unchanged,
and the error result for rule 0 has the degraded failure shape. -/
theorem checkRule_error_contained_witness :
    checkRuleWithLLM "r" (.error "boom") =
      { rule := "r", status := "fail", evidence := "Error processing rule",
        reasoning := "Failed to analyze: boom", confidence := 0 } ∧
    (evalAllFrom (fun _ => .error "boom") 0
        [.jstr "rule one", .jstr "rule two"]).get? 1 =
      (evalAllFrom (fun j => if j = 0 then .ok ⟨some "pass", none, none, none⟩
          else .error "boom") 0
        [.jstr "rule one", .jstr "rule two"]).get? 1 :=
  ⟨checkRule_error_contained.1 "r" "boom",
   checkRule_error_contained.2 [.jstr "rule one", .jstr "rule two"]
     (fun _ => .error "boom")
     (fun j => if j = 0 then .ok ⟨some "pass", none, none, none⟩
       else .error "boom")
     0 (fun j hj => by simp [hj]) 1 (by decide)⟩

/-- C4 (counterexample): the claim that a non-PDF upload is rejected with
HTTP 400 before any extraction is attempted is false on the code.  The
handler performs no file-type check: with a file present and a valid
non-empty rules array, it reads the bytes and calls `pdf-parse`, which on a
non-PDF buffer throws (modelled by the `.error "Invalid PDF structure"`
extraction oracle); the `catch` block then answers HTTP 500, after
extraction was attempted. -/
theorem nonPdf_rejection_counterexample :
    (checkPdfHandler (some ()) (.arr [.jstr "Document mentions a date."])
        (.error "Invalid PDF structure")
        (fun _ => .error "unused")).response =
      .serverError "Invalid PDF structure" ∧
    (checkPdfHandler (some ()) (.arr [.jstr "Document mentions a date."])
        (.error "Invalid PDF structure")
        (fun _ => .error "unused")).extractionAttempted = true := by
  decide

/-- C4 (amended): a non-PDF upload is not rejected up front.  With a file
present and a valid non-empty rules array, the handler always attempts the
extraction; when `pdf-parse` throws, the temporary file is cleaned up, the
client receives HTTP 500 carrying the extraction error message, and no LLM
call is made. -/
theorem nonPdf_yields_500_after_extraction (rules : List JRule)
    (hne : rules.length ≠ 0) (msg : String)
    (oracle : Nat → Except String LLMReply) :
    checkPdfHandler (some ()) (.arr rules) (.error msg) oracle =
      { response := .serverError msg, fsFinal := ⟨false, 1⟩,
        extractionAttempted := true, llmCalls := 0 } := by
  simp [checkPdfHandler, hne, cleanupIfExists, unlinkSync]

/-- Witness for C4 (amended): the concrete non-PDF request of the
counterexample takes exactly that 500 outcome. -/
theorem nonPdf_yields_500_after_extraction_witness :
    checkPdfHandler (some ()) (.arr [.jstr "Document mentions a date."])
        (.error "Invalid PDF structure") (fun _ => .error "unused") =
      { response := .serverError "Invalid PDF structure",
        fsFinal := ⟨false, 1⟩, extractionAttempted := true, llmCalls := 0 } :=
  nonPdf_yields_500_after_extraction [.jstr "Document mentions a date."]
    (by decide) "Invalid PDF structure" (fun _ => .error "unused")

/-- C5: whenever the handler answers 200 with a results array, that array
has exactly one entry per input rule, and its `j`-th entry is the (settled,
successful) evaluation of the `j`-th input rule against its own oracle
interaction — i.e. results are in input order, independent of any
completion order of the concurrent evaluations (the model joins by
position, as `Promise.all` does). -/
theorem results_one_per_rule_in_order (rs : List JRule) (text : String)
    (oracle : Nat → Except String LLMReply) (results : List RuleResult)
    (h : (checkPdfHandler (some ()) (.arr rs) (.ok text) oracle).response
      = .ok results) :
    results.length = rs.length ∧
    ∀ j (hj : j < rs.length) (hj2 : j < results.length),
      Except.ok (results.get ⟨j, hj2⟩) =
        (evalRuleEntry (rs.get ⟨j, hj⟩) (oracle j)).1 := by
  have hrun : runRules rs oracle = .ok results := by
    by_cases h0 : rs.length = 0
    · simp [checkPdfHandler, h0] at h
    · by_cases ht : jsTrim text = ""
      · simp [checkPdfHandler, h0, ht] at h
      · cases hr : runRules rs oracle with
        | error e => simp [checkPdfHandler, h0, ht, hr] at h
        | ok res =>
          simp only [checkPdfHandler, h0, ht, hr, if_false, if_neg] at h
          simp at h
          rw [← h]
  rw [runRules, promiseAll_eq_ok_iff] at hrun
  have hlen : results.length = rs.length := by
    have := congrArg List.length hrun
    simp [evalAllFrom_length] at this
    omega
  refine ⟨hlen, fun j hj hj2 => ?_⟩
  have hq := congrArg (fun l => l.get? j) hrun
  simp only [List.get?_eq_getElem?, List.getElem?_map] at hq
  simp only [← List.get?_eq_getElem?] at hq
  rw [evalAllFrom_get? oracle 0 rs j hj, List.get?_eq_get hj2] at hq
  simp only [Nat.zero_add, Option.map_some', Option.some.injEq] at hq
  exact hq.symm

/-- Witness for C5: a concrete one-rule request whose response is 200; its
results array has one element, which is the evaluation of the one rule. -/
theorem results_one_per_rule_in_order_witness :
    ([⟨"The document mentions a date.", "pass", "Published 2024", "ok", 90⟩] :
        List RuleResult).length =
      ([JRule.jstr "The document mentions a date."] : List JRule).length ∧
    Except.ok (([⟨"The document mentions a date.", "pass", "Published 2024",
        "ok", 90⟩] : List RuleResult).get ⟨0, by decide⟩) =
      (evalRuleEntry
        (([JRule.jstr "The document mentions a date."] : List JRule).get
          ⟨0, by decide⟩)
        (Except.ok ⟨some "pass", some "Published 2024", some "ok",
          some (.jnum 90)⟩)).1 := by
  have h := results_one_per_rule_in_order
    [JRule.jstr "The document mentions a date."] "Published 2024"
    (fun _ => .ok ⟨some "pass", some "Published 2024", some "ok",
      some (.jnum 90)⟩)
    [⟨"The document mentions a date.", "pass", "Published 2024", "ok", 90⟩]
    (by decide)
  exact ⟨h.1, h.2 0 (by decide) (by decide)⟩

/-- C6: a rule string that is empty or whitespace-only short-circuits: the
per-rule evaluation resolves (for every possible LLM interaction, i.e.
independently of it) to the fixed `emptyRuleResult` — whose status is
"fail", reasoning "Rule is empty or invalid" and confidence 0 — and the
LLM-call flag is false, so the external service is not invoked. -/
theorem empty_rule_short_circuit (s : String)
    (reply : Except String LLMReply) (h : jsTrim s = "") :
    (evalRuleEntry (.jstr s) reply).1 =
      .ok (emptyRuleResult (if s = "" then "Empty rule" else s)) ∧
    (evalRuleEntry (.jstr s) reply).2 = false ∧
    ∀ r : String, (emptyRuleResult r).status = "fail" ∧
      (emptyRuleResult r).reasoning = "Rule is empty or invalid" ∧
      (emptyRuleResult r).confidence = 0 := by
  by_cases hs : s = ""
  · subst hs
    exact ⟨by simp [evalRuleEntry], rfl, fun r => ⟨rfl, rfl, rfl⟩⟩
  · exact ⟨by simp [evalRuleEntry, hs, h], by simp [evalRuleEntry, hs, h],
      fun r => ⟨rfl, rfl, rfl⟩⟩

/-- Witness for C6: the whitespace-only rule " " short-circuits to the
fixed failure result without an LLM call. -/
theorem empty_rule_short_circuit_witness :
    (evalRuleEntry (.jstr " ") (.error "unused")).1 =
      .ok (emptyRuleResult " ") ∧
    (evalRuleEntry (.jstr " ") (.error "unused")).2 = false ∧
    (emptyRuleResult " ").status = "fail" ∧
    (emptyRuleResult " ").reasoning = "Rule is empty or invalid" ∧
    (emptyRuleResult " ").confidence = 0 := by
  have h := empty_rule_short_circuit " " (.error "unused") (by decide)
  refine ⟨?_, h.2.1, h.2.2 " "⟩
  have h1 := h.1
  rwa [if_neg (by decide)] at h1

/-- The success path of the handler: file present, non-empty rules array,
extraction succeeded with non-blank text, and every per-rule promise
resolved. -/
theorem checkPdfHandler_ok_path (rs : List JRule) (text : String)
    (oracle : Nat → Except String LLMReply) (results : List RuleResult)
    (h0 : rs.length ≠ 0) (ht : jsTrim text ≠ "")
    (hr : runRules rs oracle = .ok results) :
    checkPdfHandler (some ()) (.arr rs) (.ok text) oracle =
      { response := .ok results, fsFinal := ⟨false, 1⟩,
        extractionAttempted := true, llmCalls := llmCallCount rs oracle } := by
  simp [checkPdfHandler, h0, ht, hr, unlinkSync]

/-- The path of the handler where a per-rule promise rejects (after the
file was already deleted on the success path at line 75): the `catch`
block finds the file gone and answers 500. -/
theorem checkPdfHandler_reject_path (rs : List JRule) (text : String)
    (oracle : Nat → Except String LLMReply) (msg : String)
    (h0 : rs.length ≠ 0) (ht : jsTrim text ≠ "")
    (hr : runRules rs oracle = .error msg) :
    checkPdfHandler (some ()) (.arr rs) (.ok text) oracle =
      { response := .serverError msg, fsFinal := ⟨false, 1⟩,
        extractionAttempted := true, llmCalls := llmCallCount rs oracle } := by
  simp [checkPdfHandler, h0, ht, hr, unlinkSync, cleanupIfExists]

/-- C7 (counterexample): for the spec's example input — rules
`["Document mentions a date.", "", "Document has a summary."]` against a
document reading "Published 2024" — the second result element has rule
field "Empty rule", not the empty string the claim requires: line 86 of
the source computes `rule || 'Empty rule'`, and the empty string is falsy
in JavaScript. -/
theorem example_middle_rule_field_counterexample :
    (checkPdfHandler (some ())
        (.arr [.jstr "Document mentions a date.", .jstr "",
               .jstr "Document has a summary."])
        (.ok "Published 2024")
        (fun _ => .ok ⟨some "pass", some "Published 2024", some "ok",
          some (.jnum 90)⟩)).response =
      .ok [⟨"Document mentions a date.", "pass", "Published 2024", "ok", 90⟩,
           ⟨"Empty rule", "fail", "No rule provided",
             "Rule is empty or invalid", 0⟩,
           ⟨"Document has a summary.", "pass", "Published 2024", "ok", 90⟩] ∧
    ("Empty rule" : String) ≠ "" := by
  decide

/-- C7 (amended): for the example input, the response is a 3-element
result array whose second element is exactly
`{rule: "Empty rule", status: "fail", evidence: "No rule provided",
reasoning: "Rule is empty or invalid", confidence: 0}` — the rule field is
the fallback string "Empty rule" rather than the submitted empty string —
and elements 1 and 3 are the independent LLM evaluations of their rules. -/
theorem example_middle_rule_is_empty_fallback
    (oracle : Nat → Except String LLMReply) :
    (checkPdfHandler (some ())
        (.arr [.jstr "Document mentions a date.", .jstr "",
               .jstr "Document has a summary."])
        (.ok "Published 2024") oracle).response =
      .ok [checkRuleWithLLM "Document mentions a date." (oracle 0),
           emptyRuleResult "Empty rule",
           checkRuleWithLLM "Document has a summary." (oracle 2)] := by
  have e0 : evalRuleEntry (.jstr "Document mentions a date.") (oracle 0) =
      (.ok (checkRuleWithLLM "Document mentions a date." (oracle 0)), true) := by
    simp only [evalRuleEntry]
    rw [if_neg (by decide), if_neg (by decide)]
  have e1 : evalRuleEntry (.jstr "") (oracle 1) =
      (.ok (emptyRuleResult "Empty rule"), false) := by
    simp [evalRuleEntry]
  have e2 : evalRuleEntry (.jstr "Document has a summary.") (oracle 2) =
      (.ok (checkRuleWithLLM "Document has a summary." (oracle 2)), true) := by
    simp only [evalRuleEntry]
    rw [if_neg (by decide), if_neg (by decide)]
  have hrun : runRules
      [.jstr "Document mentions a date.", .jstr "",
       .jstr "Document has a summary."] oracle =
      .ok [checkRuleWithLLM "Document mentions a date." (oracle 0),
           emptyRuleResult "Empty rule",
           checkRuleWithLLM "Document has a summary." (oracle 2)] := by
    rw [runRules, promiseAll_eq_ok_iff]
    simp [evalAllFrom, e0, e1, e2]
  rw [checkPdfHandler_ok_path _ _ _ _ (by decide) (by decide) hrun]

/-- C8: on every exit path of the handler after the upload has been saved
(bad-JSON rules, non-array or nullish rules, empty rules array, extraction
failure, blank extracted text, a rejected per-rule promise, or success),
the temporary file has been deleted exactly once — `unlinkSync` ran once
and the file no longer exists when the response goes out. -/
theorem temp_file_deleted_exactly_once (rules : RulesInput)
    (extract : Except String String)
    (oracle : Nat → Except String LLMReply) :
    (checkPdfHandler (some ()) rules extract oracle).fsFinal.unlinkCount = 1 ∧
    (checkPdfHandler (some ()) rules extract oracle).fsFinal.fileExists
      = false := by
  cases rules with
  | badJson => exact ⟨rfl, rfl⟩
  | nullish => exact ⟨rfl, rfl⟩
  | notArray => exact ⟨rfl, rfl⟩
  | arr rs =>
    by_cases h0 : rs.length = 0
    · simp [checkPdfHandler, h0, unlinkSync]
    · cases extract with
      | error msg =>
        simp [checkPdfHandler, h0, cleanupIfExists, unlinkSync]
      | ok text =>
        by_cases ht : jsTrim text = ""
        · simp [checkPdfHandler, h0, ht, unlinkSync]
        · cases hr : runRules rs oracle with
          | error msg =>
            simp [checkPdfHandler, h0, ht, hr, cleanupIfExists, unlinkSync]
          | ok results =>
            simp [checkPdfHandler, h0, ht, hr, unlinkSync]

/-- C9: the prompt embeds exactly the first 12,000 characters of the
document text — the embedded fragment never exceeds 12,000 characters
before the marker — and the "..." truncation marker is appended if and only
if the original text is longer than 12,000 characters: text of length at
most 12,000 is embedded whole and unmarked. -/
theorem prompt_embeds_truncated_text (text rule : String) :
    buildPrompt text rule =
      promptHead ++ rule ++ promptMid ++ truncatedDocText text ++
        promptTail ∧
    jsLength (jsSubstring text 12000) ≤ 12000 ∧
    truncatedDocText text =
      (if jsLength text > 12000 then jsSubstring text 12000 ++ "..."
       else text) := by
  refine ⟨rfl, ?_, ?_⟩
  · show (text.data.take 12000).length ≤ 12000
    rw [List.length_take]
    exact min_le_left _ _
  · by_cases h : jsLength text > 12000
    · simp only [truncatedDocText, if_pos h]
    · simp only [truncatedDocText, if_neg h]
      have hle : text.data.length ≤ 12000 := by
        simp only [jsLength, Nat.not_lt] at h
        exact h
      show String.mk (text.data.take 12000) ++ String.mk [] = text
      rw [List.take_of_length_le hle]
      show String.mk (text.data ++ []) = text
      rw [List.append_nil]

/-- C10: a rules array containing a truthy non-string element — here the
number 1 — makes the per-rule callback throw (calling `.trim()` on a
number is a `TypeError`), which rejects the joined `Promise.all` and lands
in the handler's `catch`: the whole request is answered with an HTTP 500
error body carrying the `TypeError` message, and no results array is
produced for any rule. -/
theorem non_string_rule_rejects_request
    (oracle : Nat → Except String LLMReply) :
    (checkPdfHandler (some ())
        (.arr [.jstr "Document mentions a date.", .jnum 1])
        (.ok "Published 2024") oracle).response =
      .serverError "rule.trim is not a function" := by
  have e0 : evalRuleEntry (.jstr "Document mentions a date.") (oracle 0) =
      (.ok (checkRuleWithLLM "Document mentions a date." (oracle 0)),
        true) := by
    simp only [evalRuleEntry]
    rw [if_neg (by decide), if_neg (by decide)]
  have e1 : evalRuleEntry (.jnum 1) (oracle 1) =
      (.error "rule.trim is not a function", false) := by
    simp [evalRuleEntry]
  have hrun : runRules [.jstr "Document mentions a date.", .jnum 1] oracle =
      .error "rule.trim is not a function" := by
    rw [runRules]
    simp [evalAllFrom, e0, e1, promiseAll, Except.map]
  rw [checkPdfHandler_reject_path _ _ _ _ (by decide) (by decide) hrun]
